import Mathlib

/-!
Shallow embedding of `src/homeassistant/components/template/binary_sensor.py`
(the template binary-sensor platform): the recompute pipeline `_async_render`,
the debounced commit protocol `async_check_state`, the dependency resolution in
`async_setup_platform`, and the startup wiring in `async_added_to_hass`.

Template renders and the state store are external collaborators; a pass is
modelled by the render result each configured template produces during that
pass (`PassInput`).  Machine integers do not occur; delays are modelled as
natural-number durations (`timedelta` is opaque here; only truthiness and the
exact duration value matter to the code).
-/

/-- Characters of a string, lowercased; embeds Python `str.lower()` as used by
the source (only ASCII case matters for the literal comparison to "true"). -/
def strToLower (s : String) : String := ⟨s.data.map Char.toLower⟩

/-- Embeds Python `str.startswith(pre)`. -/
def strStartsWith (s pre : String) : Bool := pre.data.isPrefixOf s.data

/-- Replacement of every non-overlapping occurrence of `pat` (nonempty in all
uses) by `rep`, scanning left to right; fuel makes the recursion structural. -/
def replaceAux (pat rep : List Char) : Nat → List Char → List Char
  | 0, l => l
  | _ + 1, [] => []
  | fuel + 1, c :: cs =>
    if pat.isPrefixOf (c :: cs) then rep ++ replaceAux pat rep fuel ((c :: cs).drop pat.length)
    else c :: replaceAux pat rep fuel cs

/-- Embeds Python `s.replace(pat, rep)` for nonempty `pat`. -/
def strReplace (s pat rep : String) : String := ⟨replaceAux pat.data rep.data s.data.length s.data⟩

/-- Single-quote character, written by code point to keep the text plain. -/
def squote : String := String.singleton (Char.ofNat 39)

/-- Message prefix the source tests for to classify a `TemplateError` as the
soft undefined-reference error: `UndefinedError: 'None' has no attribute`. -/
def undefinedErrPrefix : String := "UndefinedError: " ++ squote ++ "None" ++ squote ++ " has no attribute"

/-- Outcome of rendering one template during one pass: the rendered string, or
a `TemplateError` carrying its message (`ex.args[0]`; the source treats an
exception with empty `args` as a hard error, which this model folds into an
arbitrary non-matching message). -/
inductive RenderResult where
  | ok (value : String)
  | err (msg : String)
deriving DecidableEq

/-- Classification test from the source: `ex.args[0].startswith("UndefinedError: 'None' has no attribute")`. -/
def isSoftMsg (msg : String) : Bool := strStartsWith msg undefinedErrPrefix

/-- Normalization used for the value and availability templates:
`render().lower() == "true"`. -/
def toBoolLit (s : String) : Bool := strToLower s == "true"

/-- Runtime fields of one `BinarySensorTemplate` instance that `_async_render`
reads and writes (`_state`, `_icon`, `_entity_picture`, `_available`,
`_attributes`); `state = none` is the initial Unknown. -/
structure SensorState where
  state : Option Bool
  icon : Option String
  entity_picture : Option String
  available : Bool
  attributes : List (String × String)
deriving DecidableEq

/-- Initial runtime fields set by `__init__`. -/
def initSensorState : SensorState :=
  { state := none, icon := none, entity_picture := none, available := true, attributes := [] }

/-- Render results of each configured template against the store during one
recompute pass: `none` in an optional slot means that template is not
configured; `attribute_renders` lists the attribute templates in dict
insertion order. -/
structure PassInput where
  value : RenderResult
  icon : Option RenderResult
  entity_picture : Option RenderResult
  availability : Option RenderResult
  attribute_renders : List (String × RenderResult)
deriving DecidableEq

/-- Log records emitted through `_LOGGER.warning` / `_LOGGER.error`. -/
inductive LogEvent where
  | warning (msg : String)
  | error (msg : String)
deriving DecidableEq

/-- Warning text of the soft value-template failure path. -/
def valueSoftLog (name : String) : LogEvent :=
  .warning ("Could not render template " ++ name ++ ", the state is unknown")

/-- Error text of the hard value-template failure path. -/
def valueHardLog (name msg : String) : LogEvent :=
  .error ("Could not render template " ++ name ++ ": " ++ msg)

/-- Error text for one failing attribute template. -/
def attrErrLog (key msg : String) : LogEvent :=
  .error ("Error rendering attribute " ++ key ++ ": " ++ msg)

/-- Human-readable label of an icon/picture/availability slot:
`property_name[1:].replace("_", " ")`. -/
def friendlyPropertyName (property_name : String) : String :=
  strReplace ⟨property_name.data.drop 1⟩ "_" " "

/-- Log record for a failure in the icon/picture/availability chain, using the
same two-tier soft/hard classification as the value template. -/
def propErrLog (name property_name msg : String) : LogEvent :=
  if isSoftMsg msg then
    .warning ("Could not render " ++ friendlyPropertyName property_name ++ " template "
      ++ name ++ ", the state is unknown.")
  else
    .error ("Could not render " ++ friendlyPropertyName property_name ++ " template "
      ++ name ++ ": " ++ msg)

/-- Candidate produced by step 1 of `_async_render` alone: `some` boolean on a
successful render, `none` (Unknown) on any failure. -/
def valueCandidate : RenderResult → Option Bool
  | .ok v => some (toBoolLit v)
  | .err _ => none

/-- Decides whether the value render fails soft, which makes `_async_render`
return before attributes and the icon/picture/availability chain. -/
def softValueAbort : RenderResult → Bool
  | .ok _ => false
  | .err m => isSoftMsg m

/-- Attribute loop of `_async_render`: each attribute template renders
independently; a success is added to the fresh map `attrs`, a failure is
logged and omitted. Returns the new map and the error logs. -/
def renderAttrs : List (String × RenderResult) → List (String × String) × List LogEvent
  | [] => ([], [])
  | (key, .ok v) :: rest =>
    ((key, v) :: (renderAttrs rest).1, (renderAttrs rest).2)
  | (key, .err m) :: rest =>
    ((renderAttrs rest).1, attrErrLog key m :: (renderAttrs rest).2)

/-- Explicit-dispatch form of `setattr(self, property_name, value)` over the
three chained slots; for `_available` the rendered string is first mapped
through the "true"-literal comparison. -/
def applyProp (property_name value : String) (st : SensorState) : SensorState :=
  if property_name == "_icon" then { st with icon := some value }
  else if property_name == "_entity_picture" then { st with entity_picture := some value }
  else if property_name == "_available" then { st with available := toBoolLit value }
  else st

/-- Ordered icon/picture/availability loop of `_async_render`: slots with no
template are skipped, a success assigns the field, and the first failure logs
once and returns immediately (`return state`), leaving every remaining field
untouched. The Bool records whether the loop returned early. -/
def renderProps (name : String) :
    List (String × Option RenderResult) → SensorState → SensorState × List LogEvent × Bool
  | [], st => (st, [], false)
  | (_, none) :: rest, st => renderProps name rest st
  | (p, some (.ok v)) :: rest, st => renderProps name rest (applyProp p v st)
  | (p, some (.err m)) :: _, st => (st, [propErrLog name p m], true)

/-- Outcome of one `_async_render` pass: the returned candidate, the runtime
fields after the pass's side effects, and the log records emitted. -/
structure RenderOutcome where
  result : Option Bool
  st : SensorState
  logs : List LogEvent
deriving DecidableEq

/-- Steps 2 and 3 of `_async_render` (attribute loop, then the ordered
icon/picture/availability chain), shared by the success and hard-error paths
of step 1; `state` is the candidate step 1 computed, `logs0` its logs. -/
def continueRender (name : String) (inp : PassInput) (st : SensorState)
    (state : Option Bool) (logs0 : List LogEvent) : RenderOutcome :=
  let ar := renderAttrs inp.attribute_renders
  let st1 : SensorState := { st with attributes := ar.1 }
  let pr := renderProps name
    [("_icon", inp.icon), ("_entity_picture", inp.entity_picture), ("_available", inp.availability)]
    st1
  { result := state, st := pr.1, logs := logs0 ++ ar.2 ++ pr.2.1 }

/-- Embeds `BinarySensorTemplate._async_render` (source lines 239-300): render
the value template (soft failure logs a warning and returns at once; hard
failure logs an error and continues with candidate Unknown), then the
attribute loop, then the short-circuiting icon/picture/availability chain, and
return the step-1 candidate. -/
def async_render (name : String) (inp : PassInput) (st : SensorState) : RenderOutcome :=
  match inp.value with
  | .ok v => continueRender name inp st (some (toBoolLit v)) []
  | .err m =>
    if isSoftMsg m then { result := none, st := st, logs := [valueSoftLog name] }
    else continueRender name inp st none [valueHardLog name m]

/-- Immutable per-sensor configuration used by the commit protocol: the
friendly name (for log text) and the `delay_on` / `delay_off` durations
(`none` when unset). -/
structure SensorConfig where
  name : String
  delay_on : Option Nat
  delay_off : Option Nat
deriving DecidableEq

/-- Python truthiness of `self._delay_on` / `self._delay_off`: `None` and the
zero duration are falsy, any positive duration is truthy. -/
def delayFalsy : Option Nat → Bool
  | none => true
  | some n => n == 0

/-- One tracker created by the source's call to `async_track_same_state`: the
captured target value and the delay period passed as `period`. -/
structure PendingTracker where
  target : Bool
  period : Nat
deriving DecidableEq

/-- Observable machine state of one sensor: its runtime fields, the
outstanding debounce trackers in creation order (the source keeps no handle to
them, so none is ever cancelled by the sensor itself), and the sequence of
snapshots published via `async_schedule_update_ha_state`. -/
structure MachineState where
  sensor : SensorState
  trackers : List PendingTracker
  published : List SensorState
deriving DecidableEq

/-- Machine state of a freshly constructed sensor. -/
def initMachineState : MachineState :=
  { sensor := initSensorState, trackers := [], published := [] }

/-- Embeds the nested `set_state` callback: assign `self._state` and publish
the resulting snapshot through `async_schedule_update_ha_state`. -/
def set_state (b : Bool) (ms : MachineState) : MachineState :=
  { ms with
    sensor := { ms.sensor with state := some b },
    published := ms.published ++ [{ ms.sensor with state := some b }] }

/-- Modelled from the spec: the `state` property used in the comparison
`state == self.state` is inherited from `BinarySensorDevice`
(`homeassistant.components.binary_sensor`, not present under `src/`); the spec
(section 4.3) describes this suppression check as comparing the candidate
against "the already-committed value", so the view is the committed tri-state
value `_state`. -/
def entityStateView (st : SensorState) : Option Bool := st.state

/-- Condition of the immediate-commit branch, exactly as written:
`(state and not self._delay_on) or (not state and not self._delay_off)`. -/
def immediateCommit (cfg : SensorConfig) (b : Bool) : Bool :=
  (b && delayFalsy cfg.delay_on) || (!b && delayFalsy cfg.delay_off)

/-- Embeds `BinarySensorTemplate.async_check_state` (source lines 302-329):
run `_async_render`; return if the candidate is Unknown or equals the
committed value; otherwise commit immediately when the direction's delay is
falsy, else start one more tracker for exactly that delay (the canceller
returned by `async_track_same_state` is discarded, so existing trackers are
untouched). -/
def async_check_state (cfg : SensorConfig) (inp : PassInput) (ms : MachineState) :
    MachineState × List LogEvent :=
  let o := async_render cfg.name inp ms.sensor
  let ms1 : MachineState := { ms with sensor := o.st }
  match o.result with
  | none => (ms1, o.logs)
  | some b =>
    if entityStateView o.st = some b then (ms1, o.logs)
    else if immediateCommit cfg b then (set_state b ms1, o.logs)
    else
      let period := (if b then cfg.delay_on else cfg.delay_off).getD 0
      ({ ms1 with trackers := ms1.trackers ++ [{ target := b, period := period }] }, o.logs)

/-- Modelled from the spec: the deadline protocol of `async_track_same_state`
(`homeassistant.helpers.event`, not present under `src/`). Spec section 4.3:
when the timer deadline is reached, the guard is re-evaluated and the commit
happens iff it still confirms the target; on guard failure the transition is
abandoned with nothing rescheduled. The guard itself comes from the source:
`lambda *args: self._async_render() == state`, so evaluating it runs a full
render pass whose side effects on the runtime fields persist. -/
def trackerFire (cfg : SensorConfig) (inp : PassInput) (t : PendingTracker)
    (ms : MachineState) : MachineState × List LogEvent :=
  let o := async_render cfg.name inp ms.sensor
  let ms1 : MachineState := { ms with sensor := o.st }
  if o.result = some t.target then (set_state t.target ms1, o.logs) else (ms1, o.logs)

/-- Embeds `template_bsensor_state_listener` (source lines 179-182): a change
notification for a tracked entity runs one `async_check_state` cycle. -/
def template_bsensor_state_listener (cfg : SensorConfig) (inp : PassInput)
    (ms : MachineState) : MachineState × List LogEvent :=
  async_check_state cfg inp ms

/-- Embeds `BinarySensorTemplate.async_update` (source lines 331-333): a
forced update runs one `async_check_state` cycle. -/
def async_update (cfg : SensorConfig) (inp : PassInput) (ms : MachineState) :
    MachineState × List LogEvent :=
  async_check_state cfg inp ms

/-- External events that drive one sensor: a tracked-entity change
notification, a forced update, and the deadline of the i-th outstanding
tracker; each carries the render results the store would produce at that
moment. -/
inductive SensorEvent where
  | state_change (inp : PassInput)
  | forced_update (inp : PassInput)
  | tracker_deadline (i : Nat) (inp : PassInput)
deriving DecidableEq

/-- One step of the sensor machine on an external event. A tracker that fires
is removed from the outstanding list whether or not its guard confirms the
target (it is never rescheduled); a deadline index with no tracker is a
no-op. -/
def dispatch_event (cfg : SensorConfig) (ms : MachineState) :
    SensorEvent → MachineState × List LogEvent
  | .state_change inp => template_bsensor_state_listener cfg inp ms
  | .forced_update inp => async_update cfg inp ms
  | .tracker_deadline i inp =>
    match ms.trackers.get? i with
    | none => (ms, [])
    | some t => trackerFire cfg inp t { ms with trackers := ms.trackers.eraseIdx i }

/-- Result of `template.extract_entities()` for one template: a finite list of
entity ids, or the `MATCH_ALL` sentinel. -/
inductive ExtractResult where
  | keys (ks : List String)
  | matchAll
deriving DecidableEq

/-- Per-device configuration slice that `async_setup_platform` feeds into
dependency resolution: the extraction result of each configured template
(optional slots may be absent), the attribute templates in dict insertion
order, and the optional manual `entity_id` list. -/
structure DeviceConfig where
  value_template : ExtractResult
  icon_template : Option ExtractResult
  entity_picture_template : Option ExtractResult
  availability_template : Option ExtractResult
  attribute_templates : List (String × ExtractResult)
  manual_entity_ids : Option (List String)
deriving DecidableEq

/-- Resolved dependency set of one sensor: a finite set of tracked entity
ids, or the `MATCH_ALL` sentinel. -/
inductive TrackedIds where
  | ids (s : Finset String)
  | matchAll
deriving DecidableEq

/-- Iteration order of the extraction loop:
`chain(templates.items(), attribute_templates.items())` with the four fixed
slots first, in source dict order. -/
def templateItems (cfg : DeviceConfig) : List (String × Option ExtractResult) :=
  [("value_template", some cfg.value_template),
   ("icon_template", cfg.icon_template),
   ("entity_picture_template", cfg.entity_picture_template),
   ("availability_template", cfg.availability_template)]
  ++ cfg.attribute_templates.map (fun kv => (kv.1, some kv.2))

/-- Extraction loop of `async_setup_platform` (source lines 79-93): skip
absent templates; when manual entity ids are configured, skip extraction
entirely; a `MATCH_ALL` extraction makes the whole set `MATCH_ALL` and records
the template name with `_template` cut off; a finite extraction is unioned in
unless the set already became `MATCH_ALL`. -/
def resolveLoop (manual : Bool) :
    List (String × Option ExtractResult) → TrackedIds × List String → TrackedIds × List String
  | [], acc => acc
  | (_, none) :: rest, acc => resolveLoop manual rest acc
  | (nm, some ex) :: rest, acc =>
    if manual then resolveLoop manual rest acc
    else
      match ex, acc with
      | .matchAll, (_, inv) =>
        resolveLoop manual rest (TrackedIds.matchAll, inv ++ [strReplace nm "_template" ""])
      | .keys _, (TrackedIds.matchAll, inv) => resolveLoop manual rest (TrackedIds.matchAll, inv)
      | .keys ks, (TrackedIds.ids s, inv) =>
        resolveLoop manual rest (TrackedIds.ids (s ∪ ks.toFinset), inv)

/-- Dependency resolution of `async_setup_platform` for one device (source
lines 66-108): run the extraction loop from the empty set, then use the manual
entity ids verbatim when configured. Returns the resolved set and the
`invalid_templates` names collected for the warning. -/
def async_setup_entity_ids (cfg : DeviceConfig) : TrackedIds × List String :=
  let r := resolveLoop cfg.manual_entity_ids.isSome (templateItems cfg) (TrackedIds.ids ∅, [])
  match cfg.manual_entity_ids with
  | some m => (TrackedIds.ids m.toFinset, r.2)
  | none => r

/-- Comma join used by the warning text: `", ".join(invalid_templates)`. -/
def joinComma : List String → String
  | [] => ""
  | [s] => s
  | s :: rest => s ++ ", " ++ joinComma rest

/-- Setup-time diagnostics (source lines 100-108): one warning naming the
offending templates, emitted iff `invalid_templates` is nonempty. -/
def setupLogs (device : String) (invalid : List String) : List LogEvent :=
  if invalid = [] then []
  else
    [.warning ("Template binary sensor " ++ device ++ " has no entity ids configured to"
      ++ " track nor were we able to extract the entities to track"
      ++ " from the " ++ joinComma invalid ++ " template(s). This entity will only be able"
      ++ " to be updated manually.")]

/-- Actions `template_bsensor_startup` performs when the one-shot
`EVENT_HOMEASSISTANT_START` signal arrives. -/
inductive StartupAction where
  | track_state_change (entities : TrackedIds)
  | check_state
deriving DecidableEq

/-- Embeds `template_bsensor_startup` (source lines 184-193): subscribe to
state changes of `self._entities` unless they resolved to `MATCH_ALL`, then
always run one `async_check_state` cycle. -/
def template_bsensor_startup (entities : TrackedIds) : List StartupAction :=
  (if entities = TrackedIds.matchAll then [] else [StartupAction.track_state_change entities])
  ++ [StartupAction.check_state]

/-- Logs contributed by step 1 of `_async_render` alone. -/
def valueStepLogs (name : String) : RenderResult → List LogEvent
  | .ok _ => []
  | .err m => if isSoftMsg m then [valueSoftLog name] else [valueHardLog name m]

/-- Attribute entries that render successfully in one pass, in order. -/
def successfulAttrs (l : List (String × RenderResult)) : List (String × String) :=
  l.filterMap (fun kv => match kv.2 with | .ok v => some (kv.1, v) | .err _ => none)

theorem async_render_result (name : String) (inp : PassInput) (st : SensorState) :
    (async_render name inp st).result = valueCandidate inp.value := by
  cases h : inp.value with
  | ok v => simp [async_render, continueRender, valueCandidate, h]
  | err m =>
    by_cases hs : isSoftMsg m = true
    · simp [async_render, valueCandidate, h, hs]
    · simp [async_render, continueRender, valueCandidate, h, hs]

theorem async_render_continue (name : String) (inp : PassInput) (st : SensorState)
    (h : softValueAbort inp.value = false) :
    async_render name inp st =
      continueRender name inp st (valueCandidate inp.value) (valueStepLogs name inp.value) := by
  cases hv : inp.value with
  | ok v => simp [async_render, hv, valueCandidate, valueStepLogs]
  | err m =>
    have hs : isSoftMsg m = false := by simpa [softValueAbort, hv] using h
    simp [async_render, hv, valueCandidate, valueStepLogs, hs]

theorem applyProp_state (p v : String) (st : SensorState) :
    (applyProp p v st).state = st.state := by
  unfold applyProp; split_ifs <;> rfl

theorem applyProp_attributes (p v : String) (st : SensorState) :
    (applyProp p v st).attributes = st.attributes := by
  unfold applyProp; split_ifs <;> rfl

theorem renderProps_state (name : String) :
    ∀ (l : List (String × Option RenderResult)) (st : SensorState),
      ((renderProps name l st).1).state = st.state
  | [], st => rfl
  | (_, none) :: rest, st => renderProps_state name rest st
  | (p, some (.ok v)) :: rest, st => by
    rw [renderProps, renderProps_state name rest, applyProp_state]
  | (_, some (.err _)) :: _, _ => rfl

theorem renderProps_attributes (name : String) :
    ∀ (l : List (String × Option RenderResult)) (st : SensorState),
      ((renderProps name l st).1).attributes = st.attributes
  | [], st => rfl
  | (_, none) :: rest, st => renderProps_attributes name rest st
  | (p, some (.ok v)) :: rest, st => by
    rw [renderProps, renderProps_attributes name rest, applyProp_attributes]
  | (_, some (.err _)) :: _, _ => rfl

theorem async_render_state (name : String) (inp : PassInput) (st : SensorState) :
    (async_render name inp st).st.state = st.state := by
  cases h : inp.value with
  | ok v => simp [async_render, continueRender, h, renderProps_state]
  | err m =>
    by_cases hs : isSoftMsg m = true
    · simp [async_render, h, hs]
    · simp [async_render, continueRender, h, hs, renderProps_state]

theorem renderAttrs_fst :
    ∀ l : List (String × RenderResult), (renderAttrs l).1 = successfulAttrs l
  | [] => rfl
  | (key, .ok v) :: rest => by
    rw [renderAttrs]; simp [successfulAttrs, renderAttrs_fst rest]
  | (key, .err m) :: rest => by
    rw [renderAttrs]; simp [successfulAttrs, renderAttrs_fst rest]

theorem renderAttrs_err_mem {k m : String} :
    ∀ {l : List (String × RenderResult)}, (k, RenderResult.err m) ∈ l →
      attrErrLog k m ∈ (renderAttrs l).2
  | (key, .ok v) :: rest, h => by
    rw [renderAttrs]
    have h2 : (k, RenderResult.err m) ∈ rest := by
      rcases List.mem_cons.mp h with h1 | h1
      · simp at h1
      · exact h1
    exact renderAttrs_err_mem h2
  | (key, .err m2) :: rest, h => by
    rw [renderAttrs]
    rcases List.mem_cons.mp h with h1 | h1
    · simp only [Prod.mk.injEq, RenderResult.err.injEq] at h1
      rw [h1.1, h1.2]
      exact List.mem_cons_self _ _
    · exact List.mem_cons_of_mem _ (renderAttrs_err_mem h1)

theorem check_state_unknown (cfg : SensorConfig) (inp : PassInput) (ms : MachineState)
    (h : valueCandidate inp.value = none) :
    async_check_state cfg inp ms =
      ({ ms with sensor := (async_render cfg.name inp ms.sensor).st },
       (async_render cfg.name inp ms.sensor).logs) := by
  simp only [async_check_state, async_render_result, h]

theorem check_state_same (cfg : SensorConfig) (inp : PassInput) (ms : MachineState) (b : Bool)
    (h : valueCandidate inp.value = some b) (hsame : ms.sensor.state = some b) :
    async_check_state cfg inp ms =
      ({ ms with sensor := (async_render cfg.name inp ms.sensor).st },
       (async_render cfg.name inp ms.sensor).logs) := by
  have hview : entityStateView (async_render cfg.name inp ms.sensor).st = some b := by
    rw [entityStateView, async_render_state, hsame]
  simp only [async_check_state, async_render_result, h]
  rw [if_pos hview]

theorem check_state_immediate (cfg : SensorConfig) (inp : PassInput) (ms : MachineState)
    (b : Bool) (h : valueCandidate inp.value = some b) (hdiff : ms.sensor.state ≠ some b)
    (hi : immediateCommit cfg b = true) :
    async_check_state cfg inp ms =
      (set_state b { ms with sensor := (async_render cfg.name inp ms.sensor).st },
       (async_render cfg.name inp ms.sensor).logs) := by
  have hview : entityStateView (async_render cfg.name inp ms.sensor).st ≠ some b := by
    rw [entityStateView, async_render_state]; exact hdiff
  simp only [async_check_state, async_render_result, h]
  rw [if_neg hview, if_pos hi]

theorem check_state_delayed (cfg : SensorConfig) (inp : PassInput) (ms : MachineState)
    (b : Bool) (h : valueCandidate inp.value = some b) (hdiff : ms.sensor.state ≠ some b)
    (hi : immediateCommit cfg b = false) :
    async_check_state cfg inp ms =
      ({ ms with
          sensor := (async_render cfg.name inp ms.sensor).st,
          trackers := ms.trackers ++
            [{ target := b, period := (if b then cfg.delay_on else cfg.delay_off).getD 0 }] },
       (async_render cfg.name inp ms.sensor).logs) := by
  have hview : entityStateView (async_render cfg.name inp ms.sensor).st ≠ some b := by
    rw [entityStateView, async_render_state]; exact hdiff
  have hi2 : ¬ immediateCommit cfg b = true := by rw [hi]; exact Bool.false_ne_true
  simp only [async_check_state, async_render_result, h]
  rw [if_neg hview, if_neg hi2]

theorem applyProp_icon (v : String) (st : SensorState) :
    applyProp "_icon" v st = { st with icon := some v } := rfl

theorem applyProp_picture (v : String) (st : SensorState) :
    applyProp "_entity_picture" v st = { st with entity_picture := some v } := rfl

theorem applyProp_available (v : String) (st : SensorState) :
    applyProp "_available" v st = { st with available := toBoolLit v } := rfl

/-- Soft failure message used for the C1 scenario. -/
def c1Msg : String := undefinedErrPrefix ++ " " ++ squote ++ "state" ++ squote

/-- Pass in which the value template fails soft while an attribute template
renders successfully. -/
def c1Inp : PassInput :=
  { value := .err c1Msg, icon := none, entity_picture := none, availability := none,
    attribute_renders := [("a", .ok "new")] }

/-- Prior runtime fields holding a stale attribute value. -/
def c1St : SensorState :=
  { state := none, icon := none, entity_picture := none, available := true,
    attributes := [("a", "old")] }

/-- C1, counterexample: in a pass whose value template fails with the soft
undefined-reference error, the attribute step is NOT attempted — the stale
attribute map survives even though the attribute template rendered a new
value, contradicting "the remaining steps of the pass ... are still attempted
rather than aborted". -/
theorem c1_counterexample :
    softValueAbort c1Inp.value = true
    ∧ (async_render "s" c1Inp c1St).st.attributes = [("a", "old")]
    ∧ ¬ (async_render "s" c1Inp c1St).st.attributes = [("a", "new")]
    ∧ (async_render "s" c1Inp c1St).logs = [valueSoftLog "s"]
    ∧ (async_render "s" c1Inp c1St).result = none := by decide

/-- C1 (amended): when evaluation of the value expression fails with the
undefined-reference (soft) error, a warning is logged and the candidate for
the pass is Unknown, but the remaining steps of the pass are skipped rather
than attempted: `_async_render` returns immediately, leaving attributes,
icon, picture and availability at their prior values. -/
theorem c1_soft_error_aborts (name : String) (inp : PassInput) (st : SensorState)
    (m : String) (hv : inp.value = RenderResult.err m) (hs : isSoftMsg m = true) :
    async_render name inp st = { result := none, st := st, logs := [valueSoftLog name] } := by
  simp [async_render, hv, hs]

theorem c1_soft_error_aborts_witness :
    async_render "s" c1Inp c1St =
      { result := none, st := c1St, logs := [valueSoftLog "s"] } :=
  c1_soft_error_aborts "s" c1Inp c1St c1Msg rfl (by decide)

/-- Pass in which the value template fails soft while a configured icon
template renders successfully. -/
def c2Inp : PassInput :=
  { value := .err (undefinedErrPrefix ++ " x"), icon := some (.ok "mdi:new"),
    entity_picture := none, availability := none, attribute_renders := [] }

/-- C2, counterexample: a recompute pass in which the icon/picture/
availability sequence is not evaluated at all — the value template fails soft,
so the configured icon template, although it would render successfully, is
never evaluated and the icon field keeps its prior value; this contradicts
"In every recompute pass, icon, picture, and availability are evaluated". -/
theorem c2_counterexample :
    c2Inp.icon = some (RenderResult.ok "mdi:new")
    ∧ (async_render "s" c2Inp initSensorState).st.icon = none
    ∧ ¬ (async_render "s" c2Inp initSensorState).st.icon = some "mdi:new" := by decide

/-- C2 (amended): in every recompute pass in which the value expression does
not fail with the soft undefined-reference error (which aborts the pass, see
C1), icon, picture and availability are evaluated in that fixed sequence; on
the first evaluation failure among the three the sequence stops immediately,
every field from the failing one onwards keeps its last-known value, the
failure is logged once with the human-readable field name, and the pass still
returns the candidate computed from the value expression in step 1. -/
theorem c2_chain_short_circuit (name : String) (inp : PassInput) (st : SensorState)
    (h : softValueAbort inp.value = false) :
    (async_render name inp st).result = valueCandidate inp.value
    ∧ (∀ m, inp.icon = some (RenderResult.err m) →
        (async_render name inp st).st.icon = st.icon
        ∧ (async_render name inp st).st.entity_picture = st.entity_picture
        ∧ (async_render name inp st).st.available = st.available
        ∧ (async_render name inp st).logs =
            valueStepLogs name inp.value ++ (renderAttrs inp.attribute_renders).2
              ++ [propErrLog name "_icon" m])
    ∧ (∀ m, (∀ m2, inp.icon ≠ some (RenderResult.err m2)) →
        inp.entity_picture = some (RenderResult.err m) →
        (async_render name inp st).st.entity_picture = st.entity_picture
        ∧ (async_render name inp st).st.available = st.available
        ∧ (async_render name inp st).logs =
            valueStepLogs name inp.value ++ (renderAttrs inp.attribute_renders).2
              ++ [propErrLog name "_entity_picture" m])
    ∧ (∀ m, (∀ m2, inp.icon ≠ some (RenderResult.err m2)) →
        (∀ m2, inp.entity_picture ≠ some (RenderResult.err m2)) →
        inp.availability = some (RenderResult.err m) →
        (async_render name inp st).st.available = st.available
        ∧ (async_render name inp st).logs =
            valueStepLogs name inp.value ++ (renderAttrs inp.attribute_renders).2
              ++ [propErrLog name "_available" m])
    ∧ (∀ v, inp.icon = some (RenderResult.ok v) → (async_render name inp st).st.icon = some v) := by
  rw [async_render_continue name inp st h]
  rcases hic : inp.icon with _ | (v1 | m1) <;>
  rcases hpc : inp.entity_picture with _ | (v2 | m2) <;>
  rcases hac : inp.availability with _ | (v3 | m3) <;>
  simp [continueRender, renderProps, hic, hpc, hac,
    applyProp_icon, applyProp_picture, applyProp_available]

theorem c2_chain_short_circuit_witness :
    (async_render "s"
      { value := .ok "true", icon := some (.err "TypeError: x"), entity_picture := none,
        availability := none, attribute_renders := [] } initSensorState).st.entity_picture = none
    ∧ (async_render "s"
      { value := .ok "true", icon := some (.err "TypeError: x"), entity_picture := none,
        availability := none, attribute_renders := [] } initSensorState).st.available = true := by
  have h := c2_chain_short_circuit "s"
    { value := .ok "true", icon := some (.err "TypeError: x"), entity_picture := none,
      availability := none, attribute_renders := [] } initSensorState (by decide)
  have h2 := h.2.1 "TypeError: x" rfl
  exact ⟨h2.2.1, h2.2.2.1⟩

/-- Pass with one succeeding and one failing attribute template for the C7
witness. -/
def c7Inp : PassInput :=
  { value := .ok "true", icon := none, entity_picture := none, availability := none,
    attribute_renders := [("g", .ok "1"), ("b", .err "TypeError: x")] }

/-- C7: in every pass that reaches attribute evaluation (the value template
did not fail soft), the attribute map is replaced wholesale with exactly the
attributes that rendered successfully this pass — independent of the previous
map — and every failing attribute is logged. -/
theorem c7_attributes_independent (name : String) (inp : PassInput) (st : SensorState)
    (h : softValueAbort inp.value = false) :
    (async_render name inp st).st.attributes = successfulAttrs inp.attribute_renders
    ∧ ∀ k m, (k, RenderResult.err m) ∈ inp.attribute_renders →
        attrErrLog k m ∈ (async_render name inp st).logs := by
  rw [async_render_continue name inp st h]
  constructor
  · simp only [continueRender]
    rw [renderProps_attributes, renderAttrs_fst]
  · intro k m hm
    simp only [continueRender, List.mem_append]
    exact Or.inl (Or.inr (renderAttrs_err_mem hm))

theorem c7_attributes_independent_witness :
    (async_render "s" c7Inp c1St).st.attributes = [("g", "1")]
    ∧ attrErrLog "b" "TypeError: x" ∈ (async_render "s" c7Inp c1St).logs := by
  have h := c7_attributes_independent "s" c7Inp c1St (by decide)
  exact ⟨h.1.trans (by decide), h.2 "b" "TypeError: x" (by decide)⟩

theorem immediateCommit_eq (cfg : SensorConfig) (b : Bool) :
    immediateCommit cfg b = delayFalsy (if b then cfg.delay_on else cfg.delay_off) := by
  cases b <;> simp [immediateCommit]

theorem bool_not_true (x : Bool) (h : ¬ x = true) : x = false := by
  cases x
  · rfl
  · exact absurd rfl h

/-- C3: a recompute whose candidate is Unknown or equals the committed value
changes nothing observable — no publish, no committed-state change, no tracker
change — and the second of two consecutive recompute cycles driven by the same
render results never publishes. -/
theorem c3_idempotent_commit (cfg : SensorConfig) (inp : PassInput) (ms : MachineState) :
    ((valueCandidate inp.value = none ∨ valueCandidate inp.value = ms.sensor.state) →
      (async_check_state cfg inp ms).1.sensor.state = ms.sensor.state
      ∧ (async_check_state cfg inp ms).1.published = ms.published
      ∧ (async_check_state cfg inp ms).1.trackers = ms.trackers)
    ∧ (async_check_state cfg inp (async_check_state cfg inp ms).1).1.published =
        (async_check_state cfg inp ms).1.published := by
  constructor
  · rintro (h | h)
    · rw [check_state_unknown cfg inp ms h]
      exact ⟨async_render_state cfg.name inp ms.sensor, rfl, rfl⟩
    · cases hc : valueCandidate inp.value with
      | none =>
        rw [check_state_unknown cfg inp ms hc]
        exact ⟨async_render_state cfg.name inp ms.sensor, rfl, rfl⟩
      | some b =>
        have hsame : ms.sensor.state = some b := by rw [← h, hc]
        rw [check_state_same cfg inp ms b hc hsame]
        exact ⟨async_render_state cfg.name inp ms.sensor, rfl, rfl⟩
  · cases hc : valueCandidate inp.value with
    | none =>
      rw [check_state_unknown cfg inp ms hc]
      rw [check_state_unknown cfg inp _ hc]
    | some b =>
      by_cases hsame : ms.sensor.state = some b
      · rw [check_state_same cfg inp ms b hc hsame]
        have hs2 : ({ ms with sensor := (async_render cfg.name inp ms.sensor).st } :
            MachineState).sensor.state = some b := by
          show (async_render cfg.name inp ms.sensor).st.state = some b
          rw [async_render_state]; exact hsame
        rw [check_state_same cfg inp _ b hc hs2]
      · by_cases himm : immediateCommit cfg b = true
        · rw [check_state_immediate cfg inp ms b hc hsame himm]
          have hs2 : (set_state b
              { ms with sensor := (async_render cfg.name inp ms.sensor).st }).sensor.state
              = some b := rfl
          rw [check_state_same cfg inp _ b hc hs2]
        · have himm2 : immediateCommit cfg b = false := bool_not_true _ himm
          rw [check_state_delayed cfg inp ms b hc hsame himm2]
          have hs2 : ¬ ({ ms with
              sensor := (async_render cfg.name inp ms.sensor).st,
              trackers := ms.trackers ++
                [{ target := b,
                   period := (if b then cfg.delay_on else cfg.delay_off).getD 0 }] } :
              MachineState).sensor.state = some b := by
            show ¬ (async_render cfg.name inp ms.sensor).st.state = some b
            rw [async_render_state]; exact hsame
          rw [check_state_delayed cfg inp _ b hc hs2 himm2]

/-- Machine state with a committed value for the C3 witness. -/
def c3Ms : MachineState :=
  { sensor := { initSensorState with state := some true }, trackers := [], published := [] }

theorem c3_idempotent_commit_witness :
    (async_check_state { name := "s", delay_on := none, delay_off := none }
      { value := .ok "true", icon := none, entity_picture := none, availability := none,
        attribute_renders := [] } c3Ms).1.sensor.state = c3Ms.sensor.state
    ∧ (async_check_state { name := "s", delay_on := none, delay_off := none }
      { value := .ok "true", icon := none, entity_picture := none, availability := none,
        attribute_renders := [] } c3Ms).1.published = c3Ms.published :=
  have h := c3_idempotent_commit { name := "s", delay_on := none, delay_off := none }
    { value := .ok "true", icon := none, entity_picture := none, availability := none,
      attribute_renders := [] } c3Ms
  ⟨(h.1 (Or.inr (by decide))).1, (h.1 (Or.inr (by decide))).2.1⟩

/-- Configuration with a nonzero `delay_on` for the C4 scenario. -/
def c4Cfg : SensorConfig := { name := "s", delay_on := some 3, delay_off := none }

/-- Pass whose value template renders "true" for the C4 scenario. -/
def c4Inp : PassInput :=
  { value := .ok "true", icon := none, entity_picture := none, availability := none,
    attribute_renders := [] }

/-- C4, counterexample: two tracked-entity changes that both render true while
`delay_on = 3` is pending leave TWO debounce trackers outstanding — the call
site discards the canceller returned by `async_track_same_state` and keeps no
pending-timer handle, so starting a new timer does not cancel the existing
one, contradicting "at most one debounce timer is outstanding at any time". -/
theorem c4_counterexample :
    (dispatch_event c4Cfg
        (dispatch_event c4Cfg initMachineState (SensorEvent.state_change c4Inp)).1
        (SensorEvent.state_change c4Inp)).1.trackers =
      [{ target := true, period := 3 }, { target := true, period := 3 }]
    ∧ ¬ (dispatch_event c4Cfg
        (dispatch_event c4Cfg initMachineState (SensorEvent.state_change c4Inp)).1
        (SensorEvent.state_change c4Inp)).1.trackers.length ≤ 1 := by decide

/-- C4 (amended): `async_check_state` never cancels an outstanding debounce
tracker — every existing tracker survives the call unchanged, and when a
delayed transition starts, one new tracker is appended after them, so several
trackers may be outstanding at once; a superseded tracker is abandoned only
when its own guard re-evaluation fails at its deadline. -/
theorem c4_trackers_append_only (cfg : SensorConfig) (inp : PassInput) (ms : MachineState) :
    (async_check_state cfg inp ms).1.trackers = ms.trackers
    ∨ ∃ t, (async_check_state cfg inp ms).1.trackers = ms.trackers ++ [t] := by
  cases hc : valueCandidate inp.value with
  | none => rw [check_state_unknown cfg inp ms hc]; exact Or.inl rfl
  | some b =>
    by_cases hsame : ms.sensor.state = some b
    · rw [check_state_same cfg inp ms b hc hsame]; exact Or.inl rfl
    · by_cases himm : immediateCommit cfg b = true
      · rw [check_state_immediate cfg inp ms b hc hsame himm]; exact Or.inl rfl
      · rw [check_state_delayed cfg inp ms b hc hsame (bool_not_true _ himm)]
        exact Or.inr ⟨_, rfl⟩

/-- C5: a pending tracker commits at its deadline iff the guard re-evaluation
(a full `_async_render` of the value expression at fire time) still yields the
target; when the guard fails the transition is abandoned — no commit, no
publish, no committed-state change — and the tracker is discarded without
rescheduling in either case. -/
theorem c5_deadline_guard (cfg : SensorConfig) (inp : PassInput) (ms : MachineState)
    (i : Nat) (t : PendingTracker) (ht : ms.trackers.get? i = some t) :
    (valueCandidate inp.value = some t.target →
      (dispatch_event cfg ms (SensorEvent.tracker_deadline i inp)).1.sensor.state = some t.target
      ∧ (dispatch_event cfg ms (SensorEvent.tracker_deadline i inp)).1.published =
          ms.published ++
            [(dispatch_event cfg ms (SensorEvent.tracker_deadline i inp)).1.sensor]
      ∧ (dispatch_event cfg ms (SensorEvent.tracker_deadline i inp)).1.trackers =
          ms.trackers.eraseIdx i)
    ∧ (¬ valueCandidate inp.value = some t.target →
      (dispatch_event cfg ms (SensorEvent.tracker_deadline i inp)).1.sensor.state =
          ms.sensor.state
      ∧ (dispatch_event cfg ms (SensorEvent.tracker_deadline i inp)).1.published = ms.published
      ∧ (dispatch_event cfg ms (SensorEvent.tracker_deadline i inp)).1.trackers =
          ms.trackers.eraseIdx i) := by
  have hrw : dispatch_event cfg ms (SensorEvent.tracker_deadline i inp) =
      trackerFire cfg inp t { ms with trackers := ms.trackers.eraseIdx i } := by
    simp only [dispatch_event, ht]
  constructor
  · intro hg
    have hres : (async_render cfg.name inp ms.sensor).result = some t.target := by
      rw [async_render_result]; exact hg
    rw [hrw]
    simp only [trackerFire, hres, if_pos rfl]
    exact ⟨rfl, rfl, rfl⟩
  · intro hg
    have hres : ¬ (async_render cfg.name inp ms.sensor).result = some t.target := by
      rw [async_render_result]; exact hg
    rw [hrw]
    simp only [trackerFire]
    rw [if_neg hres]
    exact ⟨async_render_state cfg.name inp ms.sensor, rfl, rfl⟩

/-- Machine state with one pending true-commit tracker for the C5 witness. -/
def c5Ms : MachineState :=
  { sensor := initSensorState, trackers := [{ target := true, period := 3 }], published := [] }

theorem c5_deadline_guard_witness :
    (dispatch_event c4Cfg c5Ms (SensorEvent.tracker_deadline 0 c4Inp)).1.sensor.state = some true
    ∧ (dispatch_event c4Cfg c5Ms (SensorEvent.tracker_deadline 0 c4Inp)).1.trackers = [] :=
  have h := c5_deadline_guard c4Cfg c4Inp c5Ms 0 { target := true, period := 3 } (by decide)
  ⟨(h.1 (by decide)).1, ((h.1 (by decide)).2.2).trans (by decide)⟩

/-- C6: when a recompute yields a new value different from the committed one,
the direction's delay decides: if `delay_on` (for true) / `delay_off` (for
false) is unset or zero, the value is committed immediately and the new
snapshot published with no tracker started; otherwise no commit or publish
happens and one tracker is started for exactly the configured delay. -/
theorem c6_delay_policy (cfg : SensorConfig) (inp : PassInput) (ms : MachineState) (b : Bool)
    (hc : valueCandidate inp.value = some b) (hdiff : ¬ ms.sensor.state = some b) :
    (delayFalsy (if b then cfg.delay_on else cfg.delay_off) = true →
      (async_check_state cfg inp ms).1.sensor.state = some b
      ∧ (async_check_state cfg inp ms).1.published =
          ms.published ++ [(async_check_state cfg inp ms).1.sensor]
      ∧ (async_check_state cfg inp ms).1.trackers = ms.trackers)
    ∧ (∀ p, (if b then cfg.delay_on else cfg.delay_off) = some p → ¬ p = 0 →
      (async_check_state cfg inp ms).1.trackers =
          ms.trackers ++ [{ target := b, period := p }]
      ∧ (async_check_state cfg inp ms).1.published = ms.published
      ∧ (async_check_state cfg inp ms).1.sensor.state = ms.sensor.state) := by
  constructor
  · intro hf
    have himm : immediateCommit cfg b = true := by rw [immediateCommit_eq]; exact hf
    rw [check_state_immediate cfg inp ms b hc hdiff himm]
    exact ⟨rfl, rfl, rfl⟩
  · intro p hp hpz
    have hf : delayFalsy (if b then cfg.delay_on else cfg.delay_off) = false := by
      rw [hp]; simpa [delayFalsy] using hpz
    have himm : immediateCommit cfg b = false := by rw [immediateCommit_eq]; exact hf
    rw [check_state_delayed cfg inp ms b hc hdiff himm]
    refine ⟨?_, rfl, async_render_state cfg.name inp ms.sensor⟩
    show ms.trackers ++ [{ target := b, period := (if b then cfg.delay_on else cfg.delay_off).getD 0 }]
        = ms.trackers ++ [{ target := b, period := p }]
    rw [hp]
    rfl

theorem c6_delay_policy_witness :
    (async_check_state { name := "s", delay_on := none, delay_off := none } c4Inp
        initMachineState).1.sensor.state = some true
    ∧ (async_check_state c4Cfg c4Inp initMachineState).1.trackers =
        [{ target := true, period := 3 }] :=
  have h1 := c6_delay_policy { name := "s", delay_on := none, delay_off := none } c4Inp
    initMachineState true (by decide) (by decide)
  have h2 := c6_delay_policy c4Cfg c4Inp initMachineState true (by decide) (by decide)
  ⟨(h1.1 (by decide)).1, ((h2.2 3 (by decide) (by decide)).1).trans (by decide)⟩

/-- C10: the forced-update entry point `async_update` performs exactly the
same recompute-then-debounce cycle as the tracked-entity change listener — the
two entry points are the same function of the machine state — so a forced
update is still suppressed when the candidate is Unknown or unchanged, and a
new value with a nonzero directional delay still starts a tracker instead of
committing immediately. -/
theorem c10_forced_update_equiv (cfg : SensorConfig) (inp : PassInput) (ms : MachineState) :
    async_update cfg inp ms = template_bsensor_state_listener cfg inp ms
    ∧ dispatch_event cfg ms (SensorEvent.forced_update inp) =
        dispatch_event cfg ms (SensorEvent.state_change inp)
    ∧ ((valueCandidate inp.value = none ∨ valueCandidate inp.value = ms.sensor.state) →
      (async_update cfg inp ms).1.published = ms.published
      ∧ (async_update cfg inp ms).1.sensor.state = ms.sensor.state)
    ∧ (∀ b p, valueCandidate inp.value = some b → ¬ ms.sensor.state = some b →
        (if b then cfg.delay_on else cfg.delay_off) = some p → ¬ p = 0 →
      (async_update cfg inp ms).1.published = ms.published
      ∧ (async_update cfg inp ms).1.sensor.state = ms.sensor.state
      ∧ (async_update cfg inp ms).1.trackers = ms.trackers ++ [{ target := b, period := p }]) := by
  refine ⟨rfl, rfl, ?_, ?_⟩
  · rintro (h | h)
    · rw [show async_update cfg inp ms = async_check_state cfg inp ms from rfl,
        check_state_unknown cfg inp ms h]
      exact ⟨rfl, async_render_state cfg.name inp ms.sensor⟩
    · cases hc : valueCandidate inp.value with
      | none =>
        rw [show async_update cfg inp ms = async_check_state cfg inp ms from rfl,
          check_state_unknown cfg inp ms hc]
        exact ⟨rfl, async_render_state cfg.name inp ms.sensor⟩
      | some b =>
        have hsame : ms.sensor.state = some b := by rw [← h, hc]
        rw [show async_update cfg inp ms = async_check_state cfg inp ms from rfl,
          check_state_same cfg inp ms b hc hsame]
        exact ⟨rfl, async_render_state cfg.name inp ms.sensor⟩
  · intro b p hc hdiff hp hpz
    have hf : delayFalsy (if b then cfg.delay_on else cfg.delay_off) = false := by
      rw [hp]; simpa [delayFalsy] using hpz
    have himm : immediateCommit cfg b = false := by rw [immediateCommit_eq]; exact hf
    rw [show async_update cfg inp ms = async_check_state cfg inp ms from rfl,
      check_state_delayed cfg inp ms b hc hdiff himm]
    refine ⟨rfl, async_render_state cfg.name inp ms.sensor, ?_⟩
    show ms.trackers ++ [{ target := b, period := (if b then cfg.delay_on else cfg.delay_off).getD 0 }]
        = ms.trackers ++ [{ target := b, period := p }]
    rw [hp]
    rfl

theorem c10_forced_update_equiv_witness :
    async_update c4Cfg c4Inp initMachineState =
      template_bsensor_state_listener c4Cfg c4Inp initMachineState
    ∧ (async_update c4Cfg c4Inp initMachineState).1.published = [] :=
  have h := c10_forced_update_equiv c4Cfg c4Inp initMachineState
  ⟨h.1, ((h.2.2.2 true 3 (by decide) (by decide) (by decide) (by decide)).1).trans rfl⟩

/-- Names (with `_template` cut off) of the configured templates whose
extraction yields `MATCH_ALL`, in loop order. -/
def offendingTemplates (items : List (String × Option ExtractResult)) : List String :=
  items.filterMap (fun it => match it.2 with
    | some .matchAll => some (strReplace it.1 "_template" "")
    | _ => none)

/-- Union of the finite extraction results of the configured templates. -/
def extractedUnion : List (String × Option ExtractResult) → Finset String
  | [] => ∅
  | it :: rest =>
    (match it.2 with
      | some (.keys ks) => ks.toFinset
      | _ => (∅ : Finset String)) ∪ extractedUnion rest

theorem resolveLoop_manual :
    ∀ (items : List (String × Option ExtractResult)) (acc : TrackedIds × List String),
      resolveLoop true items acc = acc
  | [], _ => rfl
  | (_, none) :: rest, acc => resolveLoop_manual rest acc
  | (_, some _) :: rest, acc => resolveLoop_manual rest acc

theorem resolveLoop_snd :
    ∀ (items : List (String × Option ExtractResult)) (acc : TrackedIds × List String),
      (resolveLoop false items acc).2 = acc.2 ++ offendingTemplates items
  | [], acc => by
    show acc.2 = acc.2 ++ offendingTemplates []
    simp [offendingTemplates]
  | (nm, none) :: rest, acc => by
    show (resolveLoop false rest acc).2 = acc.2 ++ offendingTemplates ((nm, none) :: rest)
    rw [resolveLoop_snd rest acc]
    simp [offendingTemplates, List.filterMap_cons]
  | (nm, some .matchAll) :: rest, acc => by
    rcases acc with ⟨e, inv⟩
    show (resolveLoop false rest
        (TrackedIds.matchAll, inv ++ [strReplace nm "_template" ""])).2 =
      (e, inv).2 ++ offendingTemplates ((nm, some ExtractResult.matchAll) :: rest)
    rw [resolveLoop_snd rest _]
    simp [offendingTemplates, List.filterMap_cons]
  | (nm, some (.keys ks)) :: rest, acc => by
    rcases acc with ⟨e, inv⟩
    cases e with
    | ids s =>
      show (resolveLoop false rest (TrackedIds.ids (s ∪ ks.toFinset), inv)).2 =
        (TrackedIds.ids s, inv).2 ++ offendingTemplates ((nm, some (ExtractResult.keys ks)) :: rest)
      rw [resolveLoop_snd rest _]
      simp [offendingTemplates, List.filterMap_cons]
    | matchAll =>
      show (resolveLoop false rest (TrackedIds.matchAll, inv)).2 =
        (TrackedIds.matchAll, inv).2 ++ offendingTemplates ((nm, some (ExtractResult.keys ks)) :: rest)
      rw [resolveLoop_snd rest _]
      simp [offendingTemplates, List.filterMap_cons]

theorem resolveLoop_absorb :
    ∀ (items : List (String × Option ExtractResult)) (inv : List String),
      (resolveLoop false items (TrackedIds.matchAll, inv)).1 = TrackedIds.matchAll
  | [], _ => rfl
  | (_, none) :: rest, inv => resolveLoop_absorb rest inv
  | (_, some .matchAll) :: rest, _ => resolveLoop_absorb rest _
  | (_, some (.keys _)) :: rest, inv => resolveLoop_absorb rest inv

theorem resolveLoop_no_offender :
    ∀ (items : List (String × Option ExtractResult)) (s : Finset String) (inv : List String),
      offendingTemplates items = [] →
      resolveLoop false items (TrackedIds.ids s, inv) =
        (TrackedIds.ids (s ∪ extractedUnion items), inv)
  | [], s, inv, _ => by
    show (TrackedIds.ids s, inv) = (TrackedIds.ids (s ∪ (∅ : Finset String)), inv)
    rw [Finset.union_empty]
  | (nm, none) :: rest, s, inv, h => by
    have h2 : offendingTemplates rest = [] := by
      simpa [offendingTemplates, List.filterMap_cons] using h
    show resolveLoop false rest (TrackedIds.ids s, inv) =
      (TrackedIds.ids (s ∪ extractedUnion ((nm, none) :: rest)), inv)
    rw [resolveLoop_no_offender rest s inv h2,
      show extractedUnion ((nm, none) :: rest) = (∅ : Finset String) ∪ extractedUnion rest
        from rfl,
      Finset.empty_union]
  | (nm, some .matchAll) :: rest, s, inv, h => by
    exfalso
    simp [offendingTemplates, List.filterMap_cons] at h
  | (nm, some (.keys ks)) :: rest, s, inv, h => by
    have h2 : offendingTemplates rest = [] := by
      simpa [offendingTemplates, List.filterMap_cons] using h
    show resolveLoop false rest (TrackedIds.ids (s ∪ ks.toFinset), inv) =
      (TrackedIds.ids (s ∪ extractedUnion ((nm, some (ExtractResult.keys ks)) :: rest)), inv)
    rw [resolveLoop_no_offender rest _ inv h2,
      show extractedUnion ((nm, some (ExtractResult.keys ks)) :: rest) =
        ks.toFinset ∪ extractedUnion rest from rfl,
      Finset.union_assoc]

theorem resolveLoop_offender :
    ∀ (items : List (String × Option ExtractResult)) (s : Finset String) (inv : List String),
      ¬ offendingTemplates items = [] →
      (resolveLoop false items (TrackedIds.ids s, inv)).1 = TrackedIds.matchAll
  | [], _, _, h => absurd rfl h
  | (nm, none) :: rest, s, inv, h => by
    have h2 : ¬ offendingTemplates rest = [] := by
      simpa [offendingTemplates, List.filterMap_cons] using h
    show (resolveLoop false rest (TrackedIds.ids s, inv)).1 = TrackedIds.matchAll
    exact resolveLoop_offender rest s inv h2
  | (nm, some .matchAll) :: rest, s, inv, h => by
    show (resolveLoop false rest
        (TrackedIds.matchAll, inv ++ [strReplace nm "_template" ""])).1 = TrackedIds.matchAll
    exact resolveLoop_absorb rest _
  | (nm, some (.keys ks)) :: rest, s, inv, h => by
    have h2 : ¬ offendingTemplates rest = [] := by
      simpa [offendingTemplates, List.filterMap_cons] using h
    show (resolveLoop false rest (TrackedIds.ids (s ∪ ks.toFinset), inv)).1 = TrackedIds.matchAll
    exact resolveLoop_offender rest _ inv h2

/-- C8: dependency resolution at construction yields the explicit entity-id
set verbatim when one is configured (extraction is skipped entirely and no
warning is collected); otherwise the union of the entity ids extracted from
all configured templates; and if any configured template extracts `MATCH_ALL`,
the whole set becomes `MATCH_ALL` with the warning names listing exactly the
offending templates, and exactly one warning diagnostic is emitted iff that
list is nonempty. -/
theorem c8_dependency_resolution (cfg : DeviceConfig) :
    (∀ m, cfg.manual_entity_ids = some m →
      async_setup_entity_ids cfg = (TrackedIds.ids m.toFinset, []))
    ∧ (cfg.manual_entity_ids = none → offendingTemplates (templateItems cfg) = [] →
      async_setup_entity_ids cfg =
        (TrackedIds.ids (extractedUnion (templateItems cfg)), []))
    ∧ (cfg.manual_entity_ids = none → ¬ offendingTemplates (templateItems cfg) = [] →
      async_setup_entity_ids cfg =
        (TrackedIds.matchAll, offendingTemplates (templateItems cfg)))
    ∧ (∀ device,
        (setupLogs device (async_setup_entity_ids cfg).2 = [] ↔
          (async_setup_entity_ids cfg).2 = [])
        ∧ ((¬ (async_setup_entity_ids cfg).2 = []) →
            (setupLogs device (async_setup_entity_ids cfg).2).length = 1)) := by
  refine ⟨?_, ?_, ?_, ?_⟩
  · intro m hm
    simp [async_setup_entity_ids, hm, resolveLoop_manual]
  · intro hm hoff
    simp [async_setup_entity_ids, hm,
      resolveLoop_no_offender (templateItems cfg) ∅ [] hoff]
  · intro hm hoff
    have h2 := resolveLoop_offender (templateItems cfg) ∅ [] hoff
    have h3 := resolveLoop_snd (templateItems cfg) (TrackedIds.ids ∅, [])
    simp only [async_setup_entity_ids, hm, Option.isSome_none]
    have h4 : resolveLoop false (templateItems cfg) (TrackedIds.ids ∅, []) =
        ((resolveLoop false (templateItems cfg) (TrackedIds.ids ∅, [])).1,
         (resolveLoop false (templateItems cfg) (TrackedIds.ids ∅, [])).2) := rfl
    rw [h4, h2, h3]
    simp
  · intro device
    constructor
    · constructor
      · intro h
        by_contra hne
        rw [setupLogs, if_neg hne] at h
        exact absurd h (by simp)
      · intro h
        rw [setupLogs, if_pos h]
    · intro h
      rw [setupLogs, if_neg h]
      rfl

/-- Device configuration with an unbounded icon template for the C8 witness. -/
def c8Cfg : DeviceConfig :=
  { value_template := .keys ["sensor.a"], icon_template := some .matchAll,
    entity_picture_template := none, availability_template := none,
    attribute_templates := [], manual_entity_ids := none }

/-- Device configuration with manual entity ids for the C8 witness. -/
def c8CfgManual : DeviceConfig :=
  { value_template := .matchAll, icon_template := none,
    entity_picture_template := none, availability_template := none,
    attribute_templates := [], manual_entity_ids := some ["sensor.b"] }

theorem c8_dependency_resolution_witness :
    async_setup_entity_ids c8Cfg = (TrackedIds.matchAll, ["icon"])
    ∧ async_setup_entity_ids c8CfgManual = (TrackedIds.ids {"sensor.b"}, [])
    ∧ (setupLogs "dev" (async_setup_entity_ids c8Cfg).2).length = 1 :=
  have h1 := c8_dependency_resolution c8Cfg
  have h2 := c8_dependency_resolution c8CfgManual
  ⟨(h1.2.2.1 rfl (by decide)).trans (by decide),
   (h2.1 ["sensor.b"] rfl).trans (by decide),
   (h1.2.2.2 "dev").2 (by decide)⟩

/-- C9: on the one-shot startup signal, an unbounded dependency set installs
no change subscription at all, a bounded one installs a subscription for
exactly the resolved set; in either mode exactly one initial
recompute-then-debounce cycle runs; and the subscribed listener performs
exactly one `async_check_state` cycle per change notification. -/
theorem c9_startup_wiring (e : TrackedIds) :
    (e = TrackedIds.matchAll →
      template_bsensor_startup e = [StartupAction.check_state])
    ∧ (¬ e = TrackedIds.matchAll →
      template_bsensor_startup e =
        [StartupAction.track_state_change e, StartupAction.check_state])
    ∧ (template_bsensor_startup e).count StartupAction.check_state = 1
    ∧ (∀ cfg inp ms,
        template_bsensor_state_listener cfg inp ms = async_check_state cfg inp ms) := by
  refine ⟨?_, ?_, ?_, fun _ _ _ => rfl⟩
  · intro h
    rw [template_bsensor_startup, if_pos h]
    rfl
  · intro h
    rw [template_bsensor_startup, if_neg h]
    rfl
  · by_cases h : e = TrackedIds.matchAll
    · rw [template_bsensor_startup, if_pos h]
      rfl
    · rw [template_bsensor_startup, if_neg h]
      simp [List.count_cons]

theorem c9_startup_wiring_witness :
    template_bsensor_startup TrackedIds.matchAll = [StartupAction.check_state]
    ∧ template_bsensor_startup (TrackedIds.ids {"sensor.a"}) =
        [StartupAction.track_state_change (TrackedIds.ids {"sensor.a"}),
         StartupAction.check_state] :=
  ⟨(c9_startup_wiring TrackedIds.matchAll).1 rfl,
   (c9_startup_wiring (TrackedIds.ids {"sensor.a"})).2.1 (by decide)⟩
